import Mathlib

/-!
Shallow embedding of the access-control subsystem of the `llm-search` Flask
backend: tracking-key derivation, free-tier quota engine, IP whitelist,
identity resolution and conversation-ownership checks
(`src/auth.py`, `src/security_utils.py`, `src/app.py`).

Machine integers are modelled as `Nat` with explicit `% 2^32` where Python's
`hashlib` works on 32-bit words; timestamps are `Int` seconds; fractional
hours are `Rat`.
-/

namespace LlmSearch

/-! ### SHA-256 (embedding of Python `hashlib.sha256`, bytes → hex digest)

The repository calls `hashlib.sha256(x.encode()).hexdigest()`; we embed the
FIPS-180-4 algorithm over `Nat` (mod 2^32) so tracking keys and principal ids
are the actual values the code computes. -/

def M32 : Nat := 2 ^ 32

def rotr (n x : Nat) : Nat := ((x >>> n) ||| (x <<< (32 - n))) % M32

/-- The 64 SHA-256 round constants of FIPS 180-4 (decimal form). -/
def sha256K : List Nat :=
  [1116352408, 1899447441, 3049323471, 3921009573, 961987163, 1508970993,
   2453635748, 2870763221, 3624381080, 310598401, 607225278, 1426881987,
   1925078388, 2162078206, 2614888103, 3248222580, 3835390401, 4022224774,
   264347078, 604807628, 770255983, 1249150122, 1555081692, 1996064986,
   2554220882, 2821834349, 2952996808, 3210313671, 3336571891, 3584528711,
   113926993, 338241895, 666307205, 773529912, 1294757372, 1396182291,
   1695183700, 1986661051, 2177026350, 2456956037, 2730485921, 2820302411,
   3259730800, 3345764771, 3516065817, 3600352804, 4094571909, 275423344,
   430227734, 506948616, 659060556, 883997877, 958139571, 1322822218,
   1537002063, 1747873779, 1955562222, 2024104815, 2227730452, 2361852424,
   2428436474, 2756734187, 3204031479, 3329325298]

structure Sha256State where
  a : Nat
  b : Nat
  c : Nat
  d : Nat
  e : Nat
  f : Nat
  g : Nat
  h : Nat

/-- The eight SHA-256 initial hash values of FIPS 180-4 (decimal form). -/
def sha256H0 : Sha256State :=
  ⟨1779033703, 3144134277, 1013904242, 2773480762,
   1359893119, 2600822924, 528734635, 1541459225⟩

def smallSigma0 (x : Nat) : Nat := (rotr 7 x) ^^^ (rotr 18 x) ^^^ (x >>> 3)
def smallSigma1 (x : Nat) : Nat := (rotr 17 x) ^^^ (rotr 19 x) ^^^ (x >>> 10)
def bigSigma0 (x : Nat) : Nat := (rotr 2 x) ^^^ (rotr 13 x) ^^^ (rotr 22 x)
def bigSigma1 (x : Nat) : Nat := (rotr 6 x) ^^^ (rotr 11 x) ^^^ (rotr 25 x)
def chFn (x y z : Nat) : Nat := (x &&& y) ^^^ ((x ^^^ 0xffffffff) &&& z)
def majFn (x y z : Nat) : Nat := (x &&& y) ^^^ (x &&& z) ^^^ (y &&& z)

/-- Pad a byte message per FIPS-180-4: append 0x80, zeros, then the 64-bit
big-endian bit length, reaching a multiple of 64 bytes. -/
def padMessage (msg : List Nat) : List Nat :=
  let L := msg.length
  let zeros := (64 - ((L + 9) % 64)) % 64
  let lenBytes := (List.range 8).map (fun i => ((8 * L) >>> (8 * (7 - i))) % 256)
  msg ++ [0x80] ++ List.replicate zeros 0 ++ lenBytes

/-- Split into 64-byte chunks (fuel-based so the kernel can evaluate it). -/
def chunksAux : Nat → List Nat → List (List Nat)
  | 0, _ => []
  | _, [] => []
  | fuel + 1, l => l.take 64 :: chunksAux fuel (l.drop 64)

def chunks (l : List Nat) : List (List Nat) := chunksAux l.length l

/-- The 16 initial 32-bit big-endian words of a 64-byte chunk. -/
def chunkWords (chunk : List Nat) : List Nat :=
  (List.range 16).map (fun i =>
    chunk.getD (4 * i) 0 * 2 ^ 24 + chunk.getD (4 * i + 1) 0 * 2 ^ 16 +
    chunk.getD (4 * i + 2) 0 * 2 ^ 8 + chunk.getD (4 * i + 3) 0)

/-- One extension step of the message schedule (appends w[i] for i ≥ 16). -/
def stepSchedule (ws : List Nat) : List Nat :=
  let i := ws.length
  let w := (smallSigma1 (ws.getD (i - 2) 0) + ws.getD (i - 7) 0 +
            smallSigma0 (ws.getD (i - 15) 0) + ws.getD (i - 16) 0) % M32
  ws ++ [w]

def schedule (ws : List Nat) : List Nat :=
  (List.range 48).foldl (fun acc _ => stepSchedule acc) ws

/-- One SHA-256 compression round. -/
def sha256Round (st : Sha256State) (kw : Nat × Nat) : Sha256State :=
  let t1 := (st.h + bigSigma1 st.e + chFn st.e st.f st.g + kw.1 + kw.2) % M32
  let t2 := (bigSigma0 st.a + majFn st.a st.b st.c) % M32
  ⟨(t1 + t2) % M32, st.a, st.b, st.c, (st.d + t1) % M32, st.e, st.f, st.g⟩

def processChunk (h0 : Sha256State) (chunk : List Nat) : Sha256State :=
  let ws := schedule (chunkWords chunk)
  let st := (ws.zip sha256K).foldl sha256Round h0
  ⟨(h0.a + st.a) % M32, (h0.b + st.b) % M32, (h0.c + st.c) % M32, (h0.d + st.d) % M32,
   (h0.e + st.e) % M32, (h0.f + st.f) % M32, (h0.g + st.g) % M32, (h0.h + st.h) % M32⟩

def sha256Final (msg : List Nat) : Sha256State :=
  (chunks (padMessage msg)).foldl processChunk sha256H0

def hexChar (n : Nat) : Char :=
  if n < 10 then Char.ofNat (48 + n) else Char.ofNat (87 + n)

/-- A 32-bit word as 8 lowercase hex characters, most significant nibble first. -/
def wordToHex (w : Nat) : List Char :=
  (List.range 8).map (fun i => hexChar ((w >>> (28 - 4 * i)) % 16))

/-- `hashlib.sha256(bytes).hexdigest()` as a list of characters. -/
def sha256HexChars (msg : List Nat) : List Char :=
  let st := sha256Final msg
  ([st.a, st.b, st.c, st.d, st.e, st.f, st.g, st.h].map wordToHex).flatten

/-- UTF-8 encoding of one code point (Python `str.encode()`). -/
def utf8BytesOfChar (c : Char) : List Nat :=
  let n := c.toNat
  if n < 0x80 then [n]
  else if n < 0x800 then [0xC0 ||| (n >>> 6), 0x80 ||| (n &&& 0x3F)]
  else if n < 0x10000 then
    [0xE0 ||| (n >>> 12), 0x80 ||| ((n >>> 6) &&& 0x3F), 0x80 ||| (n &&& 0x3F)]
  else
    [0xF0 ||| (n >>> 18), 0x80 ||| ((n >>> 12) &&& 0x3F),
     0x80 ||| ((n >>> 6) &&& 0x3F), 0x80 ||| (n &&& 0x3F)]

def strBytes (s : String) : List Nat := s.data.flatMap utf8BytesOfChar

/-- `hashlib.sha256(s.encode()).hexdigest()` for a string `s`. -/
def sha256Hexdigest (s : String) : String := ⟨sha256HexChars (strBytes s)⟩

/-- Python string slicing `s[:n]` (by code points, like Lean `List.take` on chars). -/
def takeChars (s : String) (n : Nat) : String := ⟨s.data.take n⟩

/-! ### Tracking-key derivation (`FreeAccessManager.get_tracking_key`, auth.py:28-37) -/

/-- `get_tracking_key`: user agent capped at 200 chars, combined as
`f"{ip}:{user_agent}"`, SHA-256, first 32 hex characters. -/
def get_tracking_key (ip : String) (user_agent_raw : String) : String :=
  let user_agent := takeChars user_agent_raw 200
  let combined := ip ++ ":" ++ user_agent
  takeChars (sha256Hexdigest combined) 32

/-! ### Data model (models.py) -/

/-- A row of `free_access_logs` (the quota ledger). `timestamp` is `Int`
seconds since an arbitrary epoch; `model` is the LLM model name. -/
structure FreeAccessLog where
  session_id : String
  ip_address : String
  user_agent : String
  timestamp : Int
  model : String
  query_count : Nat
  tracking_key : String
deriving DecidableEq

/-- A row of `ip_whitelist`. -/
structure IPWhitelist where
  ip_address : String
  description : String
  created_by : String
  is_active : Bool
deriving DecidableEq

/-- A row of `ip_usage_summary`. `date` is `Int` days; `last_activity` is
`Int` seconds. -/
structure IPUsageSummary where
  ip_address : String
  date : Int
  total_queries : Nat
  unique_sessions : Nat
  last_user_agent : String
  last_activity : Int
deriving DecidableEq

/-- The dict returned by `FreeAccessManager.check_free_access`. String-only
presentation fields (`reset_time_formatted`, `tracking_method`) are elided;
`reset_time` is kept as the `Int` timestamp it serializes. -/
structure QuotaStatus where
  has_access : Bool
  queries_used : Nat
  queries_remaining : Nat
  limit : Nat
  reset_time : Int
  hours_until_reset : Rat
  whitelisted : Bool
  whitelist_description : Option String
deriving DecidableEq

/-! ### FreeAccessManager (auth.py) -/

def FREE_QUERY_LIMIT : Nat := 10
def RESET_HOURS : Int := 24

/-- `is_whitelisted` (auth.py:39-53): first `ip_whitelist` row with this
address and `is_active`; Python returns `(entry is not None, entry)`. -/
def is_whitelisted (whitelist : List IPWhitelist) (ip : String) : Option IPWhitelist :=
  whitelist.find? (fun e => e.ip_address == ip && e.is_active)

/-- `SELECT coalesce(sum(query_count), 0) FROM free_access_logs WHERE p`. -/
def usageSum (ledger : List FreeAccessLog) (p : FreeAccessLog → Bool) : Nat :=
  ledger.foldl (fun acc r => if p r then acc + r.query_count else acc) 0

/-- `check_free_access` (auth.py:62-133). `session_id` is the resolved
session id (the `session_id=None → get_session_id()` default resolves it
from the Flask session before any ledger read); `user_agent` is the raw
request header used by `get_tracking_key`; `now` is `datetime.utcnow()` at
the cutoff computation (line 89) and `now2` the later call at line 130.
Python's `remaining = max(0, FREE_QUERY_LIMIT - max_usage)` is `Nat`
truncated subtraction. -/
def check_free_access (whitelist : List IPWhitelist) (ledger : List FreeAccessLog)
    (ip session_id user_agent : String) (now now2 : Int) : QuotaStatus :=
  match is_whitelisted whitelist ip with
  | some entry =>
      { has_access := true, queries_used := 0, queries_remaining := 999, limit := 999,
        reset_time := now + 24 * 3600, hours_until_reset := 24, whitelisted := true,
        whitelist_description := some entry.description }
  | none =>
      let tracking_key := get_tracking_key ip user_agent
      let cutoff_time := now - RESET_HOURS * 3600
      let session_usage := usageSum ledger
        (fun r => r.session_id == session_id && decide (cutoff_time ≤ r.timestamp))
      let ip_usage := usageSum ledger
        (fun r => r.ip_address == ip && decide (cutoff_time ≤ r.timestamp))
      let tracking_usage := usageSum ledger
        (fun r => r.tracking_key == tracking_key && decide (cutoff_time ≤ r.timestamp))
      let max_usage := max (max session_usage ip_usage) tracking_usage
      let remaining := FREE_QUERY_LIMIT - max_usage
      let reset_time := cutoff_time + RESET_HOURS * 3600
      { has_access := decide (remaining > 0), queries_used := max_usage,
        queries_remaining := remaining, limit := FREE_QUERY_LIMIT,
        reset_time := reset_time,
        hours_until_reset := max 0 (((reset_time - now2 : Int) : Rat) / 3600),
        whitelisted := false, whitelist_description := none }

/-- Replace the first element satisfying `p` (an ORM `.first()` row mutation). -/
def updateFirst (p : α → Bool) (f : α → α) : List α → List α
  | [] => []
  | x :: xs => if p x then f x :: xs else x :: updateFirst p f xs

/-- The mutable tables touched by `FreeAccessManager`. -/
structure DBState where
  whitelist : List IPWhitelist
  free_logs : List FreeAccessLog
  usage_summaries : List IPUsageSummary
deriving DecidableEq

/-- `log_free_query` (auth.py:135-189): whitelisted IPs skip logging and
return `check_free_access`; otherwise append one ledger row
(`query_count = 1`, user agent truncated to 500 chars) and upsert the
`(ip, today)` daily summary, then return the fresh `check_free_access`.
`today` is `date.today()` as `Int` days; `now` is the current time. -/
def log_free_query (db : DBState) (ip session_id user_agent modelName : String)
    (now now2 today : Int) : QuotaStatus × DBState :=
  match is_whitelisted db.whitelist ip with
  | some _ => (check_free_access db.whitelist db.free_logs ip session_id user_agent now now2, db)
  | none =>
      let tracking_key := get_tracking_key ip user_agent
      let ua500 := takeChars user_agent 500
      let log_entry : FreeAccessLog :=
        { session_id := session_id, ip_address := ip, user_agent := ua500,
          timestamp := now, model := modelName, query_count := 1,
          tracking_key := tracking_key }
      let new_logs := db.free_logs ++ [log_entry]
      let isToday : IPUsageSummary → Bool := fun s => s.ip_address == ip && s.date == today
      let new_summaries :=
        match db.usage_summaries.find? isToday with
        | some _ =>
            updateFirst isToday
              (fun s => { s with total_queries := s.total_queries + 1,
                                 last_user_agent := ua500, last_activity := now })
              db.usage_summaries
        | none =>
            db.usage_summaries ++
              [{ ip_address := ip, date := today, total_queries := 1,
                 unique_sessions := 1, last_user_agent := ua500, last_activity := now }]
      (check_free_access db.whitelist new_logs ip session_id user_agent now now2,
       { db with free_logs := new_logs, usage_summaries := new_summaries })

/-- Split a character list at `'.'` separators (the semantics of Python's
`str.split('.')`: an empty input yields one empty part). -/
def splitDotAux : List Char → List Char → List String
  | [], acc => [⟨acc.reverse⟩]
  | ch :: rest, acc =>
      if ch = '.' then ⟨acc.reverse⟩ :: splitDotAux rest []
      else splitDotAux rest (ch :: acc)

def splitDot (s : String) : List String := splitDotAux s.data []

/-- Decimal value of a digit string. -/
def digitsToNat (l : List Char) : Nat :=
  l.foldl (fun acc ch => acc * 10 + (ch.toNat - 48)) 0

/-- Model of stdlib `ipaddress.ip_address` validation for the IPv4
dotted-quad form (four decimal octets 0..255, no leading zeros); the claims
only exercise IPv4 strings. One octet of the dotted quad. -/
def isValidOctet (s : String) : Bool :=
  decide (0 < s.length) && decide (s.length ≤ 3) && s.data.all Char.isDigit &&
  (s.length == 1 || s.data.getD 0 '0' != '0') &&
  decide (digitsToNat s.data ≤ 255)

/-- Model of stdlib `ipaddress.ip_address(s)` succeeding (IPv4 form). -/
def is_valid_ip (s : String) : Bool :=
  let parts := splitDot s
  parts.length == 4 && parts.all isValidOctet

/-- `add_to_whitelist` (auth.py:191-222): validate the address (a
`ValueError` is caught and returned as failure); if any row for this IP
exists, reactivate it and overwrite description/creator; else insert an
active row. -/
def add_to_whitelist (whitelist : List IPWhitelist) (ip_address description created_by : String) :
    (Bool × String) × List IPWhitelist :=
  if is_valid_ip ip_address then
    match whitelist.find? (fun e => e.ip_address == ip_address) with
    | some _ =>
        ((true, "IP added to whitelist successfully"),
         updateFirst (fun e => e.ip_address == ip_address)
           (fun e => { e with is_active := true, description := description,
                              created_by := created_by })
           whitelist)
    | none =>
        ((true, "IP added to whitelist successfully"),
         whitelist ++ [{ ip_address := ip_address, description := description,
                         created_by := created_by, is_active := true }])
  else ((false, "ValueError"), whitelist)

/-- `remove_from_whitelist` (auth.py:224-239): soft-delete the first row for
this IP if present. -/
def remove_from_whitelist (whitelist : List IPWhitelist) (ip_address : String) :
    (Bool × String) × List IPWhitelist :=
  match whitelist.find? (fun e => e.ip_address == ip_address) with
  | some _ =>
      ((true, "IP removed from whitelist"),
       updateFirst (fun e => e.ip_address == ip_address)
         (fun e => { e with is_active := false }) whitelist)
  | none => ((false, "IP not found in whitelist"), whitelist)

/-! ### SimpleAuth (auth.py:241-396). The environment variable
`AUTH_PASSWORD` is `Option String` (unset = `none`); the Flask session flag
`session.get('authenticated', False)` is a `Bool` parameter. -/

/-- `is_auth_enabled`: `bool(os.getenv('AUTH_PASSWORD'))` — unset or empty
string is falsy. -/
def is_auth_enabled (auth_password : Option String) : Bool :=
  match auth_password with
  | none => false
  | some p => p != ""

/-- `is_authenticated` (auth.py:301-305): everyone counts as authenticated
when auth is disabled. -/
def is_authenticated (auth_password : Option String) (session_authenticated : Bool) : Bool :=
  if !is_auth_enabled auth_password then true
  else session_authenticated

/-- `has_access` (auth.py:307-320): `(allowed, tier, free_info)`. -/
def has_access (auth_password : Option String) (session_authenticated : Bool)
    (whitelist : List IPWhitelist) (ledger : List FreeAccessLog)
    (ip session_id user_agent : String) (now now2 : Int) :
    Bool × String × Option QuotaStatus :=
  if is_authenticated auth_password session_authenticated then (true, "authenticated", none)
  else if !is_auth_enabled auth_password then (true, "no_auth", none)
  else
    let free_access := check_free_access whitelist ledger ip session_id user_agent now now2
    if free_access.has_access then (true, "free_tier", some free_access)
    else (false, "no_access", some free_access)

/-- The denial message built by `access_required` (auth.py:369-376):
`hours = int(h)`, `minutes = int((h % 1) * 60)` for
`h = free_info['hours_until_reset']` (always ≥ 0, so `int` truncation is
`Rat.floor`). -/
def denialMessage (free_info : Option QuotaStatus) : String :=
  match free_info with
  | none => "Access denied"
  | some info =>
      let hur := info.hours_until_reset
      let hours : Int := hur.floor
      let minutes : Int := ((hur - hur.floor) * 60).floor
      if hours > 0 then
        "Daily free queries exhausted. Access will reset in " ++ toString hours ++
          "h " ++ toString minutes ++ "m."
      else
        "Daily free queries exhausted. Access will reset in " ++ toString minutes ++ "m."

/-! ### Identity resolution and conversation ownership
(security_utils.py, app.py) -/

/-- The dict returned by `get_user_identity`: `type` is `"authenticated"`
or `"free"`. -/
structure UserIdentity where
  type : String
  user_id : Option String
  session_id : Option String
deriving DecidableEq

/-- `get_user_identity` (security_utils.py:13-40). Authenticated callers
get `user_id = "auth_" + sha256(ip)[:16]` and no session id; anonymous
callers get the `session_id` cookie, falling back to the Flask session's
`free_session_id` when the cookie is missing or empty (Python truthiness),
and `user_id = None`. No fresh token is minted here. -/
def get_user_identity (auth_password : Option String) (session_authenticated : Bool)
    (client_ip : String) (cookie_session_id flask_free_session_id : Option String) :
    UserIdentity :=
  if is_authenticated auth_password session_authenticated then
    { type := "authenticated",
      user_id := some ("auth_" ++ takeChars (sha256Hexdigest client_ip) 16),
      session_id := none }
  else
    let session_id :=
      match cookie_session_id with
      | some s => if s == "" then flask_free_session_id else some s
      | none => flask_free_session_id
    { type := "free", user_id := none, session_id := session_id }

/-- A `conversations` row, restricted to the fields the access-control code
reads. The ownership columns (`user_id`, `session_id`, `ip_address`) are
written by `create_conversation` (app.py:373-386) and read by the ownership
checks; `models.py` as shipped omits their column declarations (they live in
Alembic migrations outside the source tree), matching the spec's
"Conversation ownership fields". -/
structure Conversation where
  title : String
  llm_model : String
  user_id : Option String
  session_id : Option String
  ip_address : Option String
deriving DecidableEq

/-- `create_conversation` (app.py:366-386), ownership part: the new row
carries the caller identity's `user_id` and `session_id`, and a null
`ip_address`. -/
def create_conversation (identity : UserIdentity) (title llm_model : String) : Conversation :=
  { title := title, llm_model := llm_model, user_id := identity.user_id,
    session_id := identity.session_id, ip_address := none }

/-- `check_conversation_access` (security_utils.py:50-85) on a fetched row
(`none` = not found; the invalid-UUID early return is also a denial).
Python `==` on nullable columns matches `Option` equality (`None == None`
is `True`). -/
def check_conversation_access (conversation : Option Conversation)
    (user_identity : UserIdentity) : Bool × String :=
  match conversation with
  | none => (false, "Conversation not found")
  | some conv =>
      if user_identity.type == "authenticated" then
        if conv.user_id == user_identity.user_id then (true, "Access granted")
        else (false, "Access denied")
      else
        if conv.session_id == user_identity.session_id then (true, "Access granted")
        else (false, "Access denied")

/-- `filter_conversations_by_user` (app.py:129-140). SQLAlchemy compiles
`column == None` to `IS NULL`, so the SQL filter agrees with `Option`
equality on every row. -/
def filter_conversations_by_user (convs : List Conversation) (identity : UserIdentity) :
    List Conversation :=
  if identity.type == "authenticated" then
    convs.filter (fun c => c.user_id == identity.user_id)
  else
    convs.filter (fun c => c.session_id == identity.session_id)

/-! ### Concrete fixtures used by witnesses and counterexamples -/

def exRow1 : FreeAccessLog :=
  { session_id := "sid", ip_address := "9.9.9.9", user_agent := "ua", timestamp := 86000,
    model := "m", query_count := 3, tracking_key := "other" }

def exRow2 : FreeAccessLog :=
  { session_id := "other", ip_address := "9.9.9.9", user_agent := "ua", timestamp := 86300,
    model := "m", query_count := 4, tracking_key := "other" }

def exLedger : List FreeAccessLog := [exRow1, exRow2]

/-- A ledger row sitting exactly at the window cutoff of a check made at
time 86400 (= 24h after epoch 0), matching all three tracking dimensions. -/
def boundaryRow : FreeAccessLog :=
  { session_id := "sid", ip_address := "9.9.9.9", user_agent := "ua", timestamp := 0,
    model := "m", query_count := 1, tracking_key := get_tracking_key "9.9.9.9" "ua" }

/-- A one-parameter family of ledger rows matching all three tracking
dimensions of a fixed caller, used to probe the window boundary. -/
def windowProbeRow (sid ip uaRow mn : String) (t : Int) (qc : Nat) (key : String) :
    FreeAccessLog :=
  { session_id := sid, ip_address := ip, user_agent := uaRow, timestamp := t,
    model := mn, query_count := qc, tracking_key := key }

def exEntry : IPWhitelist :=
  { ip_address := "1.2.3.4", description := "Demo office", created_by := "admin",
    is_active := true }

def exOtherEntry : IPWhitelist :=
  { ip_address := "8.8.8.8", description := "other", created_by := "admin", is_active := true }

def exSummary : IPUsageSummary :=
  { ip_address := "1.2.3.4", date := 1, total_queries := 5, unique_sessions := 2,
    last_user_agent := "ua", last_activity := 86000 }

def exDB : DBState :=
  { whitelist := [exEntry], free_logs := exLedger, usage_summaries := [exSummary] }

/-- A conversation row with null ownership fields. -/
def exConvNull : Conversation :=
  { title := "t", llm_model := "m", user_id := none, session_id := none, ip_address := none }

/-! ### Helper lemmas -/

theorem usageSum_eq_sum_filter_map (ledger : List FreeAccessLog) (p : FreeAccessLog → Bool) :
    usageSum ledger p = ((ledger.filter p).map (fun r => r.query_count)).sum := by
  suffices h : ∀ a, ledger.foldl (fun acc r => if p r then acc + r.query_count else acc) a =
      a + ((ledger.filter p).map (fun r => r.query_count)).sum by
    simpa [usageSum] using h 0
  induction ledger with
  | nil => simp
  | cons x xs ih =>
      intro a
      by_cases hx : p x
      · simp [hx, ih, List.filter_cons]; omega
      · simp [hx, ih, List.filter_cons]

theorem usageSum_singleton (r : FreeAccessLog) (p : FreeAccessLog → Bool) :
    usageSum [r] p = if p r then r.query_count else 0 := by
  by_cases h : p r <;> simp [usageSum, h]

/-! ### C1 -/

/-- C1: for a non-whitelisted caller and any ledger state, `check_free_access`
reports `queries_used` equal to the maximum of the three window-restricted
per-dimension sums of `query_count` (by session id, by IP, by tracking key),
`queries_remaining = max 0 (FREE_QUERY_LIMIT - queries_used)`, and
`has_access` true iff `queries_remaining > 0`. -/
theorem C1_max_of_three_sums (wl : List IPWhitelist) (ledger : List FreeAccessLog)
    (ip sid ua : String) (now now2 : Int)
    (hwl : is_whitelisted wl ip = none) :
    (check_free_access wl ledger ip sid ua now now2).queries_used =
      max (max
        ((ledger.filter (fun r => r.session_id == sid &&
            decide (now - RESET_HOURS * 3600 ≤ r.timestamp))).map (fun r => r.query_count)).sum
        ((ledger.filter (fun r => r.ip_address == ip &&
            decide (now - RESET_HOURS * 3600 ≤ r.timestamp))).map (fun r => r.query_count)).sum)
        ((ledger.filter (fun r => r.tracking_key == get_tracking_key ip ua &&
            decide (now - RESET_HOURS * 3600 ≤ r.timestamp))).map (fun r => r.query_count)).sum
    ∧ ((check_free_access wl ledger ip sid ua now now2).queries_remaining : Int) =
        max 0 ((FREE_QUERY_LIMIT : Int) -
          ((check_free_access wl ledger ip sid ua now now2).queries_used : Int))
    ∧ ((check_free_access wl ledger ip sid ua now now2).has_access = true ↔
        0 < (check_free_access wl ledger ip sid ua now now2).queries_remaining) := by
  refine ⟨?_, ?_, ?_⟩
  · simp [check_free_access, hwl, usageSum_eq_sum_filter_map]
  · have h : (check_free_access wl ledger ip sid ua now now2).queries_remaining =
        FREE_QUERY_LIMIT - (check_free_access wl ledger ip sid ua now now2).queries_used := by
      simp [check_free_access, hwl]
    rw [h, show FREE_QUERY_LIMIT = 10 from rfl]
    generalize (check_free_access wl ledger ip sid ua now now2).queries_used = u
    omega
  · simp [check_free_access, hwl]

/-- C1 witness: a concrete non-whitelisted caller with a two-row ledger. -/
theorem C1_witness :
    is_whitelisted [] "9.9.9.9" = none ∧
    ((check_free_access [] exLedger "9.9.9.9" "sid" "ua" 86400 86400).queries_used =
      max (max
        ((exLedger.filter (fun r => r.session_id == "sid" &&
            decide ((86400 : Int) - RESET_HOURS * 3600 ≤ r.timestamp))).map
          (fun r => r.query_count)).sum
        ((exLedger.filter (fun r => r.ip_address == "9.9.9.9" &&
            decide ((86400 : Int) - RESET_HOURS * 3600 ≤ r.timestamp))).map
          (fun r => r.query_count)).sum)
        ((exLedger.filter (fun r => r.tracking_key == get_tracking_key "9.9.9.9" "ua" &&
            decide ((86400 : Int) - RESET_HOURS * 3600 ≤ r.timestamp))).map
          (fun r => r.query_count)).sum
     ∧ ((check_free_access [] exLedger "9.9.9.9" "sid" "ua" 86400 86400).queries_remaining : Int) =
        max 0 ((FREE_QUERY_LIMIT : Int) -
          ((check_free_access [] exLedger "9.9.9.9" "sid" "ua" 86400 86400).queries_used : Int))
     ∧ ((check_free_access [] exLedger "9.9.9.9" "sid" "ua" 86400 86400).has_access = true ↔
        0 < (check_free_access [] exLedger "9.9.9.9" "sid" "ua" 86400 86400).queries_remaining)) :=
  ⟨rfl, C1_max_of_three_sums [] exLedger "9.9.9.9" "sid" "ua" 86400 86400 rfl⟩

/-! ### C4 -/

/-- C4: for an actively whitelisted IP, `check_free_access` grants access
with `whitelisted = true` and the 999 sentinel remaining count, its result
does not depend on the ledger at all, and `log_free_query` returns that same
status while leaving the whole database state (ledger and daily summaries)
unchanged, whatever the prior usage history. -/
theorem C4_whitelist_bypass (db : DBState) (ledger' : List FreeAccessLog)
    (ip sid ua mn : String) (now now2 today : Int) (entry : IPWhitelist)
    (hwl : is_whitelisted db.whitelist ip = some entry) :
    (check_free_access db.whitelist db.free_logs ip sid ua now now2).has_access = true
    ∧ (check_free_access db.whitelist db.free_logs ip sid ua now now2).whitelisted = true
    ∧ (check_free_access db.whitelist db.free_logs ip sid ua now now2).queries_used = 0
    ∧ (check_free_access db.whitelist db.free_logs ip sid ua now now2).queries_remaining = 999
    ∧ check_free_access db.whitelist ledger' ip sid ua now now2 =
        check_free_access db.whitelist db.free_logs ip sid ua now now2
    ∧ log_free_query db ip sid ua mn now now2 today =
        (check_free_access db.whitelist db.free_logs ip sid ua now now2, db) := by
  refine ⟨?_, ?_, ?_, ?_, ?_, ?_⟩ <;> simp [check_free_access, log_free_query, hwl]

/-- C4 witness: the concrete database `exDB` whose whitelist holds the
active entry for 1.2.3.4. -/
theorem C4_witness :
    is_whitelisted exDB.whitelist "1.2.3.4" = some exEntry ∧
    ((check_free_access exDB.whitelist exDB.free_logs "1.2.3.4" "sid" "ua" 86400 86400).has_access = true
    ∧ (check_free_access exDB.whitelist exDB.free_logs "1.2.3.4" "sid" "ua" 86400 86400).whitelisted = true
    ∧ (check_free_access exDB.whitelist exDB.free_logs "1.2.3.4" "sid" "ua" 86400 86400).queries_used = 0
    ∧ (check_free_access exDB.whitelist exDB.free_logs "1.2.3.4" "sid" "ua" 86400 86400).queries_remaining = 999
    ∧ check_free_access exDB.whitelist [] "1.2.3.4" "sid" "ua" 86400 86400 =
        check_free_access exDB.whitelist exDB.free_logs "1.2.3.4" "sid" "ua" 86400 86400
    ∧ log_free_query exDB "1.2.3.4" "sid" "ua" "m" 86400 86400 1 =
        (check_free_access exDB.whitelist exDB.free_logs "1.2.3.4" "sid" "ua" 86400 86400, exDB)) :=
  ⟨rfl, C4_whitelist_bypass exDB [] "1.2.3.4" "sid" "ua" "m" 86400 86400 1 exEntry rfl⟩

/-! ### C5 -/

/-- C5 counterexample: with no password configured and a session that does
not mark the caller as logged in, `has_access` returns tier
`"authenticated"`, not `"no_auth"` — the claimed `no_auth` tier is not
returned, and the `authenticated` tier is returned for a caller who is not
actually logged in. -/
theorem C5_counterexample :
    (has_access none false [] [] "1.2.3.4" "sid" "ua" 0 0).2.1 ≠ "no_auth"
    ∧ has_access none false [] [] "1.2.3.4" "sid" "ua" 0 0 = (true, "authenticated", none) := by
  constructor
  · decide
  · decide

/-- C5 amended: when no server-wide password is configured,
`is_authenticated` treats every caller as logged in, so `has_access` returns
allowed = true with tier `"authenticated"` (and no quota info) even for
callers with no authenticated session; the `"no_auth"` tier is unreachable
for every configuration. -/
theorem C5_amended_no_auth_unreachable (ap apAny : Option String) (sa saAny : Bool)
    (wl : List IPWhitelist) (ledger : List FreeAccessLog) (ip sid ua : String)
    (now now2 : Int) (h : is_auth_enabled ap = false) :
    has_access ap sa wl ledger ip sid ua now now2 = (true, "authenticated", none)
    ∧ (has_access apAny saAny wl ledger ip sid ua now now2).2.1 ≠ "no_auth" := by
  constructor
  · simp [has_access, is_authenticated, h]
  · by_cases hA : is_authenticated apAny saAny = true
    · simp [has_access, hA]
    · have hA' : is_authenticated apAny saAny = false := by simpa using hA
      have hE : is_auth_enabled apAny = true := by
        by_contra hB
        have hB' : is_auth_enabled apAny = false := by simpa using hB
        have hcontra : is_authenticated apAny saAny = true := by
          simp [is_authenticated, hB']
        exact hA hcontra
      simp [has_access, hA', hE]
      split <;> simp

/-- C5 witness: auth disabled via an unset password; the second component is
exercised with a configured password. -/
theorem C5_witness :
    is_auth_enabled none = false ∧
    (has_access none false [] [] "1.2.3.4" "sid" "ua" 0 0 = (true, "authenticated", none)
    ∧ (has_access (some "pw") false [] [] "1.2.3.4" "sid" "ua" 0 0).2.1 ≠ "no_auth") :=
  ⟨rfl, C5_amended_no_auth_unreachable none (some "pw") false false [] [] "1.2.3.4" "sid" "ua" 0 0 rfl⟩

/-! ### C6 -/

set_option maxRecDepth 100000 in
/-- C6 counterexample: a ledger event timestamped exactly `now − 24h`
(timestamp 0, checked at 86400) is counted by `check_free_access` — the
claim says it is excluded from all three sums (which would give
`queries_used = 0`), but the code's `timestamp >= cutoff` filter includes
it and reports 1. -/
theorem C6_counterexample :
    ¬ ((check_free_access [] [boundaryRow] "9.9.9.9" "sid" "ua" 86400 86400).queries_used = 0)
    ∧ (check_free_access [] [boundaryRow] "9.9.9.9" "sid" "ua" 86400 86400).queries_used = 1 := by
  constructor
  · decide
  · decide

/-- C6 amended: the 24-hour window is inclusive at its lower boundary —
ledger rows with `timestamp ≥ now − 24h` are counted. For a single row
matching all three dimensions, `queries_used` counts it iff
`now − 24h ≤ timestamp`; in particular an event exactly at `now − 24h` is
included, one at `now − 24h + 1s` is included, and one at `now − 24h − 1s`
is excluded. -/
theorem C6_amended_inclusive_boundary (wl : List IPWhitelist) (ip sid ua uaRow mn : String)
    (now now2 t : Int) (qc : Nat) (hwl : is_whitelisted wl ip = none) :
    (check_free_access wl [windowProbeRow sid ip uaRow mn t qc (get_tracking_key ip ua)]
        ip sid ua now now2).queries_used = (if now - RESET_HOURS * 3600 ≤ t then qc else 0)
    ∧ (check_free_access wl
        [windowProbeRow sid ip uaRow mn (now - RESET_HOURS * 3600) qc (get_tracking_key ip ua)]
        ip sid ua now now2).queries_used = qc
    ∧ (check_free_access wl
        [windowProbeRow sid ip uaRow mn (now - RESET_HOURS * 3600 + 1) qc (get_tracking_key ip ua)]
        ip sid ua now now2).queries_used = qc
    ∧ (check_free_access wl
        [windowProbeRow sid ip uaRow mn (now - RESET_HOURS * 3600 - 1) qc (get_tracking_key ip ua)]
        ip sid ua now now2).queries_used = 0 := by
  have key : ∀ t' : Int,
      (check_free_access wl [windowProbeRow sid ip uaRow mn t' qc (get_tracking_key ip ua)]
        ip sid ua now now2).queries_used = (if now - RESET_HOURS * 3600 ≤ t' then qc else 0) := by
    intro t'
    by_cases hle : now - RESET_HOURS * 3600 ≤ t' <;>
      simp [check_free_access, hwl, usageSum_singleton, windowProbeRow, hle] <;>
      omega
  refine ⟨key t, ?_, ?_, ?_⟩
  · rw [key]; simp
  · rw [key, if_pos (by omega)]
  · rw [key, if_neg (by omega)]

/-- C6 witness: the boundary family at a concrete caller and qc = 2. -/
theorem C6_witness :
    is_whitelisted [] "9.9.9.9" = none ∧
    ((check_free_access []
        [windowProbeRow "sid" "9.9.9.9" "ua" "m" 0 2 (get_tracking_key "9.9.9.9" "ua")]
        "9.9.9.9" "sid" "ua" 86400 86400).queries_used =
      (if (86400 : Int) - RESET_HOURS * 3600 ≤ 0 then 2 else 0)
    ∧ (check_free_access []
        [windowProbeRow "sid" "9.9.9.9" "ua" "m" ((86400 : Int) - RESET_HOURS * 3600) 2
          (get_tracking_key "9.9.9.9" "ua")]
        "9.9.9.9" "sid" "ua" 86400 86400).queries_used = 2
    ∧ (check_free_access []
        [windowProbeRow "sid" "9.9.9.9" "ua" "m" ((86400 : Int) - RESET_HOURS * 3600 + 1) 2
          (get_tracking_key "9.9.9.9" "ua")]
        "9.9.9.9" "sid" "ua" 86400 86400).queries_used = 2
    ∧ (check_free_access []
        [windowProbeRow "sid" "9.9.9.9" "ua" "m" ((86400 : Int) - RESET_HOURS * 3600 - 1) 2
          (get_tracking_key "9.9.9.9" "ua")]
        "9.9.9.9" "sid" "ua" 86400 86400).queries_used = 0) :=
  ⟨rfl, C6_amended_inclusive_boundary [] "9.9.9.9" "sid" "ua" "ua" "m" 86400 86400 0 2 rfl⟩

/-! ### C8 -/

/-- C8: every identity produced by `get_user_identity` has exactly one
active variant — it is either an authenticated identity with a non-null
`user_id` and a null `session_id`, or a free identity with a null
`user_id`; in particular no identity carries both fields non-null. -/
theorem C8_exactly_one_variant (ap : Option String) (sa : Bool) (ip : String)
    (c f : Option String) :
    ((get_user_identity ap sa ip c f).type = "authenticated"
      ∧ (get_user_identity ap sa ip c f).user_id.isSome = true
      ∧ (get_user_identity ap sa ip c f).session_id = none)
    ∨ ((get_user_identity ap sa ip c f).type = "free"
      ∧ (get_user_identity ap sa ip c f).user_id = none) := by
  by_cases h : is_authenticated ap sa = true
  · left; simp [get_user_identity, h]
  · right
    have h' : is_authenticated ap sa = false := by simpa using h
    simp [get_user_identity, h']

/-! ### C10 -/

/-- Spelled-out form of the `access_required` quota-exhausted message when
the countdown is zero. -/
theorem denialMessage_zero (info : QuotaStatus) (h : info.hours_until_reset = 0) :
    denialMessage (some info) = "Daily free queries exhausted. Access will reset in 0m." := by
  have h0 : (0 : Rat).floor = 0 := rfl
  simp [denialMessage, h, h0]
  rfl

/-- C10: for every non-whitelisted check, `reset_time = cutoff + 24h` is the
evaluation time itself, so `hours_until_reset = max 0 ((reset_time − now) /
3600)` is exactly zero and the quota-exhausted denial message always reports
a zero countdown ("0m", i.e. 0h 0m). -/
theorem C10_reset_countdown_zero (wl : List IPWhitelist) (ledger : List FreeAccessLog)
    (ip sid ua : String) (now now2 : Int) (hwl : is_whitelisted wl ip = none)
    (hle : now ≤ now2) :
    (check_free_access wl ledger ip sid ua now now2).reset_time = now
    ∧ (check_free_access wl ledger ip sid ua now now2).hours_until_reset = 0
    ∧ denialMessage (some (check_free_access wl ledger ip sid ua now now2)) =
        "Daily free queries exhausted. Access will reset in 0m." := by
  have hr : (check_free_access wl ledger ip sid ua now now2).reset_time = now := by
    simp [check_free_access, hwl]
  have hh : (check_free_access wl ledger ip sid ua now now2).hours_until_reset = 0 := by
    simp [check_free_access, hwl]
    apply div_nonpos_of_nonpos_of_nonneg
    · have hc : (now : Rat) ≤ (now2 : Rat) := by exact_mod_cast hle
      linarith
    · norm_num
  exact ⟨hr, hh, denialMessage_zero _ hh⟩

/-- C10 witness: a concrete non-whitelisted check at time 86400. -/
theorem C10_witness :
    is_whitelisted [] "9.9.9.9" = none ∧ (86400 : Int) ≤ 86400 ∧
    ((check_free_access [] exLedger "9.9.9.9" "sid" "ua" 86400 86400).reset_time = 86400
    ∧ (check_free_access [] exLedger "9.9.9.9" "sid" "ua" 86400 86400).hours_until_reset = 0
    ∧ denialMessage (some (check_free_access [] exLedger "9.9.9.9" "sid" "ua" 86400 86400)) =
        "Daily free queries exhausted. Access will reset in 0m.") :=
  ⟨rfl, le_refl _, C10_reset_countdown_zero [] exLedger "9.9.9.9" "sid" "ua" 86400 86400 rfl (le_refl _)⟩

/-! ### C3 -/

/-- C3: an anonymous request carrying neither a `session_id` cookie nor a
Flask `free_session_id` resolves to the free identity with `session_id =
None` (no fresh token is minted), and for that identity
`check_conversation_access` grants, and `filter_conversations_by_user`
returns, exactly the conversations whose stored `session_id` is NULL —
including every conversation created by an authenticated identity, since
those are stored with `session_id = None`. -/
theorem C3_null_session_matches_null_rows (ap apA : Option String) (sa saA : Bool)
    (ip ipA : String) (cA fA : Option String) (conv : Conversation)
    (convs : List Conversation) (t m : String)
    (hfree : is_authenticated ap sa = false)
    (hauth : is_authenticated apA saA = true) :
    get_user_identity ap sa ip none none =
      { type := "free", user_id := none, session_id := none }
    ∧ ((check_conversation_access (some conv) (get_user_identity ap sa ip none none)).1 = true
        ↔ conv.session_id = none)
    ∧ filter_conversations_by_user convs (get_user_identity ap sa ip none none) =
        convs.filter (fun c => c.session_id == none)
    ∧ (create_conversation (get_user_identity apA saA ipA cA fA) t m).session_id = none
    ∧ (check_conversation_access
        (some (create_conversation (get_user_identity apA saA ipA cA fA) t m))
        (get_user_identity ap sa ip none none)).1 = true := by
  have hid : get_user_identity ap sa ip none none =
      { type := "free", user_id := none, session_id := none } := by
    simp [get_user_identity, hfree]
  refine ⟨hid, ?_, ?_, ?_, ?_⟩
  · rw [hid]
    cases hc : conv.session_id <;> simp [check_conversation_access, hc]
  · rw [hid]
    simp [filter_conversations_by_user]
  · simp [create_conversation, get_user_identity, hauth]
  · rw [hid]
    simp [check_conversation_access, create_conversation, get_user_identity, hauth]

/-- C3 witness: a password is configured; the caller's session is not
marked authenticated and carries no token, while a second request is
authenticated. -/
theorem C3_witness :
    is_authenticated (some "pw") false = false ∧ is_authenticated (some "pw") true = true ∧
    (get_user_identity (some "pw") false "5.6.7.8" none none =
      { type := "free", user_id := none, session_id := none }
    ∧ ((check_conversation_access (some exConvNull)
        (get_user_identity (some "pw") false "5.6.7.8" none none)).1 = true
        ↔ exConvNull.session_id = none)
    ∧ filter_conversations_by_user [] (get_user_identity (some "pw") false "5.6.7.8" none none) =
        List.filter (fun c => c.session_id == none) []
    ∧ (create_conversation (get_user_identity (some "pw") true "1.2.3.4" none none) "t" "m").session_id = none
    ∧ (check_conversation_access
        (some (create_conversation (get_user_identity (some "pw") true "1.2.3.4" none none) "t" "m"))
        (get_user_identity (some "pw") false "5.6.7.8" none none)).1 = true) :=
  ⟨rfl, rfl,
   C3_null_session_matches_null_rows (some "pw") (some "pw") false true "5.6.7.8" "1.2.3.4"
     none none exConvNull [] "t" "m" rfl rfl⟩

/-! ### C2 -/

set_option maxRecDepth 100000 in
/-- C2 counterexample: a conversation created by an authenticated identity
(stored with `session_id = None`) is granted to — and returned by the
ownership filter for — an anonymous identity whose resolved session token
is null, so anonymous callers can see authenticated-owned rows, contrary to
the claim's "no cross-tier visibility in either direction". -/
theorem C2_counterexample :
    (check_conversation_access
        (some (create_conversation (get_user_identity (some "pw") true "1.2.3.4" none none) "t" "m"))
        (get_user_identity (some "pw") false "5.6.7.8" none none)).1 = true
    ∧ filter_conversations_by_user
        [create_conversation (get_user_identity (some "pw") true "1.2.3.4" none none) "t" "m"]
        (get_user_identity (some "pw") false "5.6.7.8" none none) =
      [create_conversation (get_user_identity (some "pw") true "1.2.3.4" none none) "t" "m"] := by
  constructor
  · decide
  · decide

/-- C2 amended: strict-token ownership isolation holds except for the
null-token anonymous caller. A conversation created under an anonymous
identity with (non-empty) token S1 is never granted to or returned for an
anonymous identity whose resolved token differs from S1 (null included),
nor for any authenticated identity; an authenticated-owned conversation is
never visible to an authenticated caller of the anonymous tier's rows nor
to an anonymous identity holding a non-null token. Only an anonymous
identity with a null resolved token can see authenticated-owned rows (see
the counterexample). -/
theorem C2_amended_ownership_isolation (s1 t1 m1 s3 t2 m2 : String)
    (apF apB apC apA : Option String) (saF saB saC saA : Bool)
    (ipF ipB ipC ipA : String) (fF cB fB fC cA fA : Option String)
    (convs : List Conversation)
    (hfreeA : is_authenticated apF saF = false) (hs1 : s1 ≠ "")
    (hfreeB : is_authenticated apB saB = false)
    (hB : (get_user_identity apB saB ipB cB fB).session_id ≠ some s1)
    (hfreeC : is_authenticated apC saC = false) (hs3 : s3 ≠ "")
    (hauth : is_authenticated apA saA = true) :
    (check_conversation_access
        (some (create_conversation (get_user_identity apF saF ipF (some s1) fF) t1 m1))
        (get_user_identity apB saB ipB cB fB)).1 = false
    ∧ create_conversation (get_user_identity apF saF ipF (some s1) fF) t1 m1 ∉
        filter_conversations_by_user convs (get_user_identity apB saB ipB cB fB)
    ∧ (check_conversation_access
        (some (create_conversation (get_user_identity apF saF ipF (some s1) fF) t1 m1))
        (get_user_identity apA saA ipA cA fA)).1 = false
    ∧ create_conversation (get_user_identity apF saF ipF (some s1) fF) t1 m1 ∉
        filter_conversations_by_user convs (get_user_identity apA saA ipA cA fA)
    ∧ (check_conversation_access
        (some (create_conversation (get_user_identity apA saA ipA cA fA) t2 m2))
        (get_user_identity apC saC ipC (some s3) fC)).1 = false
    ∧ create_conversation (get_user_identity apA saA ipA cA fA) t2 m2 ∉
        filter_conversations_by_user convs (get_user_identity apC saC ipC (some s3) fC) := by
  have hs1' : (s1 == "") = false := beq_eq_false_iff_ne.mpr hs1
  have hs3' : (s3 == "") = false := beq_eq_false_iff_ne.mpr hs3
  have hA : get_user_identity apF saF ipF (some s1) fF =
      { type := "free", user_id := none, session_id := some s1 } := by
    simp [get_user_identity, hfreeA, hs1']
  have hC : get_user_identity apC saC ipC (some s3) fC =
      { type := "free", user_id := none, session_id := some s3 } := by
    simp [get_user_identity, hfreeC, hs3']
  have hAuthI : get_user_identity apA saA ipA cA fA =
      { type := "authenticated",
        user_id := some ("auth_" ++ takeChars (sha256Hexdigest ipA) 16),
        session_id := none } := by
    simp [get_user_identity, hauth]
  have hBty : (get_user_identity apB saB ipB cB fB).type = "free" := by
    simp [get_user_identity, hfreeB]
  have hBne : (some s1 == (get_user_identity apB saB ipB cB fB).session_id) = false :=
    beq_eq_false_iff_ne.mpr (fun he => hB he.symm)
  refine ⟨?_, ?_, ?_, ?_, ?_, ?_⟩
  · rw [hA]
    simp [check_conversation_access, hBty, hBne, create_conversation]
  · intro hmem
    rw [filter_conversations_by_user, if_neg (by simp [hBty])] at hmem
    have := (List.mem_filter.mp hmem).2
    rw [hA] at this
    simp [create_conversation, hBne] at this
  · rw [hA, hAuthI]
    simp [check_conversation_access, create_conversation]
  · intro hmem
    rw [hAuthI] at hmem
    rw [filter_conversations_by_user] at hmem
    rw [if_pos (by simp)] at hmem
    have := (List.mem_filter.mp hmem).2
    rw [hA] at this
    simp [create_conversation] at this
  · rw [hAuthI, hC]
    simp [check_conversation_access, create_conversation]
  · intro hmem
    rw [hC] at hmem
    rw [filter_conversations_by_user, if_neg (by simp)] at hmem
    have := (List.mem_filter.mp hmem).2
    rw [hAuthI] at this
    simp [create_conversation] at this

set_option maxRecDepth 100000 in
/-- C2 witness: concrete anonymous owner (token "s1"), anonymous callers
with token "s2" and "s3", and an authenticated caller. -/
theorem C2_witness :
    is_authenticated (some "pw") false = false ∧ ("s1" : String) ≠ "" ∧
    (get_user_identity (some "pw") false "ipB" (some "s2") none).session_id ≠ some "s1" ∧
    ("s3" : String) ≠ "" ∧ is_authenticated (some "pw") true = true ∧
    ((check_conversation_access
        (some (create_conversation (get_user_identity (some "pw") false "ipF" (some "s1") none) "t1" "m1"))
        (get_user_identity (some "pw") false "ipB" (some "s2") none)).1 = false
    ∧ create_conversation (get_user_identity (some "pw") false "ipF" (some "s1") none) "t1" "m1" ∉
        filter_conversations_by_user [] (get_user_identity (some "pw") false "ipB" (some "s2") none)
    ∧ (check_conversation_access
        (some (create_conversation (get_user_identity (some "pw") false "ipF" (some "s1") none) "t1" "m1"))
        (get_user_identity (some "pw") true "1.2.3.4" none none)).1 = false
    ∧ create_conversation (get_user_identity (some "pw") false "ipF" (some "s1") none) "t1" "m1" ∉
        filter_conversations_by_user [] (get_user_identity (some "pw") true "1.2.3.4" none none)
    ∧ (check_conversation_access
        (some (create_conversation (get_user_identity (some "pw") true "1.2.3.4" none none) "t2" "m2"))
        (get_user_identity (some "pw") false "ipC" (some "s3") none)).1 = false
    ∧ create_conversation (get_user_identity (some "pw") true "1.2.3.4" none none) "t2" "m2" ∉
        filter_conversations_by_user [] (get_user_identity (some "pw") false "ipC" (some "s3") none)) :=
  ⟨by decide, by decide, by decide, by decide, by decide,
   C2_amended_ownership_isolation "s1" "t1" "m1" "s3" "t2" "m2"
     (some "pw") (some "pw") (some "pw") (some "pw") false false false true
     "ipF" "ipB" "ipC" "1.2.3.4" none (some "s2") none none none none []
     (by decide) (by decide) (by decide) (by decide) (by decide) (by decide) (by decide)⟩

/-! ### C7 -/

theorem updateFirst_append {α : Type} (p : α → Bool) (f : α → α) (l1 l2 : List α)
    (h : ∀ x ∈ l1, p x = false) (a : α) (ha : p a = true) :
    updateFirst p f (l1 ++ a :: l2) = l1 ++ f a :: l2 := by
  induction l1 with
  | nil => simp [updateFirst, ha]
  | cons x xs ih =>
      have hx : p x = false := h x (by simp)
      simp [updateFirst, hx, ih (fun y hy => h y (by simp [hy]))]

theorem find?_middle {α : Type} (p : α → Bool) (l1 l2 : List α)
    (h : ∀ x ∈ l1, p x = false) (a : α) (ha : p a = true) :
    List.find? p (l1 ++ a :: l2) = some a := by
  rw [List.find?_append]
  have h1 : List.find? p l1 = none := List.find?_eq_none.mpr (fun x hx => by simp [h x hx])
  rw [h1, List.find?_cons_of_pos _ ha]
  rfl

theorem filter_middle {α : Type} (p : α → Bool) (l1 l2 : List α)
    (h : ∀ x ∈ l1, p x = false) (h2 : l2.filter p = []) (a : α) (ha : p a = true) :
    (l1 ++ a :: l2).filter p = [a] := by
  have h1 : l1.filter p = [] := List.filter_eq_nil_iff.mpr (fun x hx => by simp [h x hx])
  simp [List.filter_append, h1, List.filter_cons, ha, h2]

/-- C7: if the whitelist holds exactly one row for a (syntactically valid)
IP, removing and then re-adding that IP reactivates the original row,
overwriting description and creator, without inserting a duplicate: the add
reports success, the table still holds exactly one row for that IP (now
active with the new description/creator), the table size is unchanged, and
`is_whitelisted` succeeds again. -/
theorem C7_soft_delete_roundtrip (wl : List IPWhitelist) (ip d c : String)
    (e0 : IPWhitelist)
    (h1 : wl.filter (fun e => e.ip_address == ip) = [e0])
    (hv : is_valid_ip ip = true) :
    (add_to_whitelist (remove_from_whitelist wl ip).2 ip d c).1 =
      (true, "IP added to whitelist successfully")
    ∧ ((add_to_whitelist (remove_from_whitelist wl ip).2 ip d c).2).filter
        (fun e => e.ip_address == ip) =
      [{ ip_address := ip, description := d, created_by := c, is_active := true }]
    ∧ ((add_to_whitelist (remove_from_whitelist wl ip).2 ip d c).2).length = wl.length
    ∧ is_whitelisted ((add_to_whitelist (remove_from_whitelist wl ip).2 ip d c).2) ip =
      some { ip_address := ip, description := d, created_by := c, is_active := true } := by
  obtain ⟨l1, l2, rfl, hl1, he0, hl2⟩ := List.filter_eq_cons_iff.mp h1
  have hl1' : ∀ x ∈ l1, (x.ip_address == ip) = false := fun x hx => by
    simpa using hl1 x hx
  have hip : e0.ip_address = ip := by simpa using he0
  have hrm : (remove_from_whitelist (l1 ++ e0 :: l2) ip).2 =
      l1 ++ ({ e0 with is_active := false }) :: l2 := by
    unfold remove_from_whitelist
    rw [find?_middle _ _ _ hl1' _ he0]
    exact updateFirst_append _ _ _ _ hl1' _ he0
  have he1 : (({ e0 with is_active := false } : IPWhitelist).ip_address == ip) = true := he0
  have hadd : add_to_whitelist (l1 ++ ({ e0 with is_active := false }) :: l2) ip d c =
      ((true, "IP added to whitelist successfully"),
       l1 ++ ({ ip_address := e0.ip_address, description := d, created_by := c,
                is_active := true }) :: l2) := by
    unfold add_to_whitelist
    rw [hv]
    simp only [if_true]
    rw [find?_middle _ _ _ hl1' _ he1]
    rw [updateFirst_append _ _ _ _ hl1' _ he1]
  rw [hrm, hadd]
  have he2 : (({ e0 with description := d, created_by := c, is_active := true }).ip_address == ip) = true := he0
  refine ⟨rfl, ?_, by simp, ?_⟩
  · rw [filter_middle _ _ _ hl1' hl2 _ he2, hip]
  · unfold is_whitelisted
    have hl1'' : ∀ x ∈ l1, (x.ip_address == ip && x.is_active) = false := fun x hx => by
      simp [hl1' x hx]
    rw [find?_middle _ _ _ hl1'' _ (by simp [he2]), hip]

/-- C7 witness: a two-entry whitelist holding exactly one row for 1.2.3.4. -/
theorem C7_witness :
    ([exOtherEntry, exEntry].filter (fun e => e.ip_address == "1.2.3.4") = [exEntry])
    ∧ is_valid_ip "1.2.3.4" = true
    ∧ ((add_to_whitelist (remove_from_whitelist [exOtherEntry, exEntry] "1.2.3.4").2
          "1.2.3.4" "new office" "bob").1 = (true, "IP added to whitelist successfully")
    ∧ ((add_to_whitelist (remove_from_whitelist [exOtherEntry, exEntry] "1.2.3.4").2
          "1.2.3.4" "new office" "bob").2).filter (fun e => e.ip_address == "1.2.3.4") =
      [{ ip_address := "1.2.3.4", description := "new office", created_by := "bob",
         is_active := true }]
    ∧ ((add_to_whitelist (remove_from_whitelist [exOtherEntry, exEntry] "1.2.3.4").2
          "1.2.3.4" "new office" "bob").2).length = ([exOtherEntry, exEntry] : List IPWhitelist).length
    ∧ is_whitelisted ((add_to_whitelist (remove_from_whitelist [exOtherEntry, exEntry] "1.2.3.4").2
          "1.2.3.4" "new office" "bob").2) "1.2.3.4" =
      some { ip_address := "1.2.3.4", description := "new office", created_by := "bob",
             is_active := true }) :=
  ⟨by decide, by decide,
   C7_soft_delete_roundtrip [exOtherEntry, exEntry] "1.2.3.4" "new office" "bob" exEntry
     (by decide) (by decide)⟩

/-! ### C9 -/

theorem wordToHex_length (w : Nat) : (wordToHex w).length = 8 := by
  simp [wordToHex]

theorem sha256HexChars_length (msg : List Nat) : (sha256HexChars msg).length = 64 := by
  simp [sha256HexChars, wordToHex_length]

theorem hexChar_mem (n : Nat) (h : n < 16) : hexChar n ∈ ("0123456789abcdef").data := by
  interval_cases n <;> decide

theorem mem_wordToHex_hex {ch : Char} {w : Nat} (h : ch ∈ wordToHex w) :
    ch ∈ ("0123456789abcdef").data := by
  simp [wordToHex] at h
  obtain ⟨i, hi, rfl⟩ := h
  exact hexChar_mem _ (Nat.mod_lt _ (by norm_num))

theorem mem_sha256HexChars_hex {ch : Char} {msg : List Nat} (h : ch ∈ sha256HexChars msg) :
    ch ∈ ("0123456789abcdef").data := by
  simp only [sha256HexChars, List.mem_flatten, List.mem_map] at h
  obtain ⟨l, ⟨w, hw, rfl⟩, hch⟩ := h
  exact mem_wordToHex_hex hch

/-- C9: tracking-key derivation is a pure function of (ip, user agent):
repeated derivations agree; the user agent is capped at its first 200
characters before hashing; the key is the first 32 hex characters of the
SHA-256 hex digest of `ip ++ ":" ++ user_agent`; the key always has length
exactly 32 and consists only of lowercase hex digits. -/
theorem C9_tracking_key_format (ip ua : String) :
    get_tracking_key ip ua = get_tracking_key ip ua
    ∧ get_tracking_key ip ua = get_tracking_key ip (takeChars ua 200)
    ∧ get_tracking_key ip ua =
        takeChars (sha256Hexdigest (ip ++ ":" ++ takeChars ua 200)) 32
    ∧ (get_tracking_key ip ua).length = 32
    ∧ (get_tracking_key ip ua).data.all
        (fun ch => ("0123456789abcdef").data.contains ch) = true := by
  have hcap : takeChars (takeChars ua 200) 200 = takeChars ua 200 := by
    simp [takeChars, List.take_take]
  refine ⟨rfl, ?_, rfl, ?_, ?_⟩
  · show takeChars (sha256Hexdigest (ip ++ ":" ++ takeChars ua 200)) 32 =
      takeChars (sha256Hexdigest (ip ++ ":" ++ takeChars (takeChars ua 200) 200)) 32
    rw [hcap]
  · rw [show (get_tracking_key ip ua).length =
        ((sha256HexChars (strBytes (ip ++ ":" ++ takeChars ua 200))).take 32).length from rfl]
    rw [List.length_take, sha256HexChars_length]
    decide
  · rw [List.all_eq_true]
    intro ch hch
    have hch' : ch ∈ sha256HexChars (strBytes (ip ++ ":" ++ takeChars ua 200)) :=
      List.take_subset 32 _ hch
    simpa [List.contains, List.elem_iff] using mem_sha256HexChars_hex hch'

end LlmSearch
